import Mathlib

set_option maxRecDepth 20000

/-!
Shallow embedding of the mutatis-public benchmark harness
(`run_compliance.py`, `run_memory.py`, `run_throughput.py`) and proofs
about its specified behaviour.

Machine floats are modelled as exact rationals together with an explicit
round-to-nearest operation onto the representable values of a binary
floating-point format (23 explicit mantissa bits for IEEE-754 binary32,
52 for binary64).
-/

namespace Mutatis

/-! ## Floating-point encoding model

`run_compliance.py` round-trips a Python float (an IEEE-754 binary64
value) through `struct.pack('<f', v)` / `struct.unpack('<f', ...)`,
i.e. through the nearest IEEE-754 binary32 value.  `roundFP prec emin q`
rounds the rational `q` to the nearest value of the form `m * 2 ^ (e - prec)`
where `e` is the (clamped) binade exponent of `q`; with `prec = 23`,
`emin = -126` this is rounding to binary32, with `prec = 52`,
`emin = -1022` to binary64 (overflow to infinity is not modelled; all
inputs considered here are far below the overflow threshold). -/
def roundFP (prec : ℤ) (emin : ℤ) (q : ℚ) : ℚ :=
  if q = 0 then 0
  else
    let e : ℤ := max (Int.log 2 |q|) emin
    (round (q / 2 ^ (e - prec)) : ℤ) * 2 ^ (e - prec)

/-- Rounding to IEEE-754 single precision (`struct.pack('<f', ...)`). -/
def f32 (q : ℚ) : ℚ := roundFP 23 (-126) q

/-- Rounding to IEEE-754 double precision (a Python float literal). -/
def f64 (q : ℚ) : ℚ := roundFP 52 (-1022) q

/-- Largest finite binary32 value, `(2 - 2⁻²³) * 2¹²⁷`. -/
def f32Max : ℚ := 2 ^ 128 - 2 ^ 104

/-- A rational is inside single-precision range when its magnitude does
not exceed the largest finite binary32 value. -/
def inF32Range (q : ℚ) : Prop := |q| ≤ f32Max

/-! ## JSON data model and the schema validator (`run_compliance.py`)

`VECTOR_SCHEMA` declares an object with properties `id : string`,
`vector : array of number, minItems = maxItems = 1536`,
`payload : object`, and `required = ["id", "vector"]`.
`jsonschema.validate` raises on the first violation; we model it as a
function returning `none` on success and `some error` on failure, where
the error carries the diagnostic data the raised exception would show
(for a length violation, the offending array length). -/

inductive Json where
  | str (s : String)
  | num (q : ℚ)
  | arr (xs : List Json)
  | obj (fields : List (String × Json))
  | null

def Json.isNumber : Json → Bool
  | .num _ => true
  | _ => false

def Json.isString : Json → Bool
  | .str _ => true
  | _ => false

def Json.isObject : Json → Bool
  | .obj _ => true
  | _ => false

/-- Look a field up in a JSON object's field list. -/
def lookupField (fs : List (String × Json)) (k : String) : Option Json :=
  (fs.find? (fun p => p.1 == k)).map Prod.snd

inductive SchemaError where
  | notObject
  | missingRequired (field : String)
  | wrongType (location expected : String)
  | tooShort (actualLen minItems : ℕ)
  | tooLong (actualLen maxItems : ℕ)
  deriving DecidableEq

/-- The `vector` property schema: an array of numbers with
`minItems = maxItems = 1536`. -/
def checkVectorVal (j : Json) : Option SchemaError :=
  match j with
  | .arr xs =>
    if ¬ xs.all Json.isNumber then some (.wrongType "vector items" "number")
    else if xs.length < 1536 then some (.tooShort xs.length 1536)
    else if 1536 < xs.length then some (.tooLong xs.length 1536)
    else none
  | _ => some (.wrongType "vector" "array")

/-- First-error chaining: `jsonschema.validate` raises at the first
violation encountered. -/
def firstErr (a b : Option SchemaError) : Option SchemaError :=
  match a with
  | some e => some e
  | none => b

/-- Validation of a candidate record against `VECTOR_SCHEMA`:
each declared property is checked when present, and the required
top-level fields are exactly `id` and `vector` (`payload` is declared
but not required). -/
def validate (j : Json) : Option SchemaError :=
  match j with
  | .obj fs =>
    firstErr
      (match lookupField fs "id" with
       | none => some (.missingRequired "id")
       | some v => if v.isString then none else some (.wrongType "id" "string"))
      (firstErr
        (match lookupField fs "vector" with
         | none => some (.missingRequired "vector")
         | some v => checkVectorVal v)
        (match lookupField fs "payload" with
         | none => none
         | some v => if v.isObject then none else some (.wrongType "payload" "object")))
  | _ => some .notObject

/-! ## The compliance run (`run_compliance.py`, `run_compliance`)

The driver validates a mock request against `VECTOR_SCHEMA` inside a
`try`/`except`; on a schema failure it prints `SCHEMA FAILURE` and
`return`s, so nothing after it executes.  On success it renders three
PASS rows, then runs the precision audit on `original_val`
(a fixed literal in the source; here a parameter), rendering a row whose
status is PASS iff the round-trip delta is below `1e-7`, and finally an
unconditional closing panel.  The output is modelled as the ordered list
of rendered rows/panels, each with its pass flag. -/

structure ComplianceRecord where
  check : String
  passed : Bool
  deriving DecidableEq

/-- The absolute round-trip error of the precision audit:
`delta = abs(original_val - struct.unpack('<f', struct.pack('<f', original_val))[0])`. -/
def precisionDelta (v : ℚ) : ℚ := |v - f32 v|

/-- One compliance run: the mock request and the audited value are the
inputs the source fixes at module level. -/
def run_compliance (req : Json) (v : ℚ) : List ComplianceRecord :=
  match validate req with
  | some _ => [⟨"SCHEMA FAILURE", false⟩]
  | none =>
    [⟨"JSON Structure", true⟩,
     ⟨"Dimension Count (1536)", true⟩,
     ⟨"Type Safety (Float)", true⟩,
     ⟨"Precision Delta", decide (precisionDelta v < 1 / 10 ^ 7)⟩,
     ⟨"COMPLIANCE VERIFIED", true⟩]

/-- The `original_val` literal `0.123456789123456789` of the source,
as the binary64 value the Python parser produces from that decimal. -/
def originalVal : ℚ := f64 (123456789123456789 / 10 ^ 18)

/-! ## Memory estimator (`run_memory.py`, `run_memory_test`)

The loose estimate is
`py_data.__sizeof__() + sum(sys.getsizeof(i) for i in py_data) + (VECTORS * DIMS * 24)`:
the outer list's own size and each row list's size are introspected from
the host, while the per-scalar boxed-float cost is the hard-coded
constant `24` (the comment in the source: "A python float is 24 bytes").
The host's introspection results are parameters of the model. -/

structure HostEnv where
  /-- `py_data.__sizeof__()` for the outer list of `n` rows. -/
  listRawSize : ℕ → ℕ
  /-- `sys.getsizeof` of a row list of `n` elements. -/
  listSize : ℕ → ℕ
  /-- `sys.getsizeof` of one boxed float on this host. -/
  floatObjSize : ℕ

/-- The loose-representation byte estimate computed by `run_memory_test`
for a collection of `V` rows of `D` scalars each: introspected outer
size, introspected per-row sizes, and `24` bytes per scalar. -/
def pyLooseBytes (env : HostEnv) (V D : ℕ) : ℕ :=
  env.listRawSize V + V * env.listSize D + V * D * 24

/-- Modelled from the spec: spec §4.5 requires the per-scalar
boxed-object overhead to be "computed by inspecting actual object
overhead, not assumed constants, to remain accurate if the host's
numeric object size changes"; the repository has no such definition, so
this one follows the spec's words, taking the per-scalar cost from the
host's introspected boxed-float size. -/
def specLooseBytes (env : HostEnv) (V D : ℕ) : ℕ :=
  env.listRawSize V + V * env.listSize D + V * D * env.floatObjSize

/-- A packed numpy buffer: `np.zeros((V, D), dtype=np.float32)` has
shape `(count, dim)` and 4-byte items. -/
structure PackedBuffer where
  count : ℕ
  dim : ℕ
  itemsize : ℕ
  deriving DecidableEq

/-- `np.zeros((V, D), dtype=np.float32)`. -/
def npZerosF32 (V D : ℕ) : PackedBuffer := ⟨V, D, 4⟩

/-- `ndarray.nbytes`: the exact data size of a packed buffer. -/
def nbytes (b : PackedBuffer) : ℕ := b.count * b.dim * b.itemsize

/-- The bloat ratio `py_size / mutatis_size` reported by the run
(unit conversion to MB cancels in the ratio). -/
def bloatRatio (env : HostEnv) (V D : ℕ) : ℚ :=
  (pyLooseBytes env V D : ℚ) / (nbytes (npZerosF32 V D) : ℚ)

/-- CPython 64-bit list sizes: `__sizeof__` of a list of `n` pointers is
`40 + 8 n`; `sys.getsizeof` adds the 16-byte GC header. (The concrete
constants only feed concrete instantiations; no theorem depends on
them.) -/
def cpython : HostEnv := ⟨fun n => 40 + 8 * n, fun n => 56 + 8 * n, 24⟩

/-! ## Similarity kernel and the throughput loops (`run_throughput.py`) -/

inductive ThroughputErr where
  | DimensionMismatch
  deriving DecidableEq

/-- A packed float32 buffer with its row values, as
`np.array(raw_data, dtype=np.float32)` materializes it. -/
structure Packed where
  dim : ℕ
  rows : List (List ℚ)

/-- Inner product of one buffer row with the query. -/
def dotRow (r q : List ℚ) : ℚ := (List.zipWith (fun a b => a * b) r q).sum

/-- Modelled from the spec: the similarity kernel `dot` is numpy's
`np.dot`, library code not part of this repository.  Spec §4.3:
"Requires `packed_buffer.dimension == query.dimension`; fails with a
`DimensionMismatch` error otherwise.  Computes, for each row, the inner
product with `query`." -/
def dot (buf : Packed) (q : List ℚ) : Except ThroughputErr (List ℚ) :=
  if buf.dim = q.length then .ok (buf.rows.map (fun r => dotRow r q))
  else .error .DimensionMismatch

structure MetricRecord where
  architecture_label : String
  operation_kind : String
  value : ℚ
  unit : String

/-- One throughput measurement turned into a MetricRecord: the record
exists only when the measured `dot` succeeded (a raised error propagates
out of the timing loop before any record is built; the wall-clock `qps`
number is a parameter, timing being outside the model). -/
def throughputMetric (label : String) (qps : ℚ) (buf : Packed) (q : List ℚ) :
    Except ThroughputErr MetricRecord :=
  (dot buf q).map (fun _ => ⟨label, "throughput", qps, "QPS"⟩)

/-- List-to-float32-buffer conversion `np.array(raw_data, dtype=np.float32)`:
every scalar is narrowed to single precision, row-major order kept. -/
def npArrayF32 (raw : List (List ℚ)) : List (List ℚ) :=
  raw.map (fun r => r.map f32)

/-- One iteration of the standard-path loop in `run_throughput`:
`_ = np.array(raw_data, dtype=np.float32)` (performed, result
discarded), then `_ = np.dot(fast_buffer, query)`.  The pair records
both what was computed and the similarity output. -/
def standardIteration (raw : List (List ℚ)) (fast_buffer : Packed) (query : List ℚ) :
    List (List ℚ) × Except ThroughputErr (List ℚ) :=
  (npArrayF32 raw, dot fast_buffer query)

/-- One iteration of the optimized-path loop: only
`_ = np.dot(fast_buffer, query)`. -/
def optimizedIteration (fast_buffer : Packed) (query : List ℚ) :
    Except ThroughputErr (List ℚ) :=
  dot fast_buffer query

/-! ## Concrete records and hosts used as inputs -/

/-- The mock request of `run_compliance` (vector values fixed at `0.0`;
the source draws them randomly, which the schema does not inspect beyond
their being numbers). -/
def mockRequest : Json :=
  .obj [("id", .str "vec_8a7b9c"),
        ("vector", .arr (List.replicate 1536 (.num 0))),
        ("payload", .obj [("source", .str "whitepaper_test")])]

/-- The well-formed record of the schema scenario:
`{"id": "x", "vector": [0.0]*1536, "payload": {}}`. -/
def wellFormedRecord : Json :=
  .obj [("id", .str "x"),
        ("vector", .arr (List.replicate 1536 (.num 0))),
        ("payload", .obj [])]

/-- The same record with a 1535-element vector. -/
def shortRecord : Json :=
  .obj [("id", .str "x"),
        ("vector", .arr (List.replicate 1535 (.num 0))),
        ("payload", .obj [])]

/-- A record with no `payload` field at all. -/
def noPayloadRecord : Json :=
  .obj [("id", .str "x"),
        ("vector", .arr (List.replicate 1536 (.num 0)))]

/-- A host identical to CPython except that its boxed floats occupy 28
bytes instead of 24. -/
def cpython28 : HostEnv := ⟨fun n => 40 + 8 * n, fun n => 56 + 8 * n, 28⟩

/-! ## Evaluation and error-bound lemmas for the rounding model -/

/-- Rounding of a concrete rational, through `round x = ⌊x + 1/2⌋`. -/
theorem round_eval {x : ℚ} {n : ℤ} (h1 : (n : ℚ) ≤ x + 1 / 2) (h2 : x + 1 / 2 < n + 1) :
    round x = n := by
  rw [round_eq]
  exact Int.floor_eq_iff.mpr ⟨h1, h2⟩

/-- Characterization of `Int.log 2` by binade membership. -/
theorem intLog_eq {q : ℚ} {e : ℤ} (h0 : 0 < q) (h1 : (2 : ℚ) ^ e ≤ q) (h2 : q < 2 ^ (e + 1)) :
    Int.log 2 q = e := by
  have hb : 1 < 2 := one_lt_two
  have hle : e ≤ Int.log 2 q := by
    rw [← Int.zpow_le_iff_le_log hb h0]
    push_cast
    exact h1
  have hlt : Int.log 2 q < e + 1 := by
    rw [← Int.lt_zpow_iff_log_lt hb h0]
    push_cast
    exact h2
  omega

/-- Unfolding `roundFP` at a positive rational with known binade. -/
theorem roundFP_eval {prec emin : ℤ} {q : ℚ} {e : ℤ} {n : ℤ} {r : ℚ}
    (h0 : 0 < q) (h1 : (2 : ℚ) ^ e ≤ q) (h2 : q < 2 ^ (e + 1)) (hm : emin ≤ e)
    (hn : round (q / 2 ^ (e - prec)) = n) (hr : (n : ℚ) * 2 ^ (e - prec) = r) :
    roundFP prec emin q = r := by
  have hq : q ≠ 0 := ne_of_gt h0
  have hlog : Int.log 2 |q| = e := by
    rw [abs_of_pos h0]
    exact intLog_eq h0 h1 h2
  rw [roundFP, if_neg hq]
  simp only [hlog, max_eq_left hm, hn, hr]

/-- Half-ulp error bound for `roundFP`: the rounding error never exceeds
half of the spacing `2 ^ (e - prec)` at the input's (clamped) binade. -/
theorem abs_sub_roundFP_le (prec emin : ℤ) (q : ℚ) :
    |q - roundFP prec emin q| ≤ 2 ^ (max (Int.log 2 |q|) emin - prec) / 2 := by
  by_cases hq : q = 0
  · subst hq
    simp [roundFP]
    positivity
  · rw [roundFP, if_neg hq]
    set e : ℤ := max (Int.log 2 |q|) emin with he
    set u : ℚ := 2 ^ (e - prec) with hu
    have hu0 : (0 : ℚ) < u := by
      rw [hu]
      positivity
    have hrw : q - (round (q / u) : ℚ) * u = (q / u - round (q / u)) * u := by
      field_simp
      ring
    calc |q - (round (q / u) : ℚ) * u| = |q / u - round (q / u)| * |u| := by
          rw [hrw, abs_mul]
      _ ≤ 1 / 2 * |u| := by
          exact mul_le_mul_of_nonneg_right (abs_sub_round (q / u)) (abs_nonneg u)
      _ = u / 2 := by
          rw [abs_of_pos hu0]
          ring

/-- Concrete evaluation of `roundFP` with the binade exponent and
rounded mantissa given up front. -/
theorem roundFP_eval_at (e n : ℤ) {prec emin : ℤ} {q r : ℚ}
    (h0 : 0 < q) (h1 : (2 : ℚ) ^ e ≤ q) (h2 : q < 2 ^ (e + 1)) (hm : emin ≤ e)
    (hn : round (q / 2 ^ (e - prec)) = n) (hr : (n : ℚ) * 2 ^ (e - prec) = r) :
    roundFP prec emin q = r := by
  have hq : q ≠ 0 := ne_of_gt h0
  have hlog : Int.log 2 |q| = e := by
    rw [abs_of_pos h0]
    exact intLog_eq h0 h1 h2
  rw [roundFP, if_neg hq]
  simp only [hlog, max_eq_left hm, hn, hr]

/-- Rounding `2 ^ 25 + 1` to single precision loses 1 whole unit: the
binade spacing there is 4. -/
theorem f32_pow25 : f32 33554433 = 33554432 := by
  refine roundFP_eval_at 25 8388608 (by norm_num) (by norm_num) (by norm_num) (by norm_num) ?_ ?_
  · have h : ((33554433 : ℚ) / 2 ^ ((25 : ℤ) - 23)) = 33554433 / 4 := by norm_num
    rw [h]
    exact round_eval (by norm_num) (by norm_num)
  · norm_num

/-- Exact value of `original_val`: the binary64 nearest to the decimal
literal `0.123456789123456789`. -/
theorem originalVal_eval : originalVal = 4447999595942063 / 36028797018963968 := by
  rw [originalVal, f64]
  refine roundFP_eval_at (-4) 8895999191884126 (by norm_num) (by norm_num) (by norm_num)
    (by norm_num) ?_ ?_
  · have h : ((123456789123456789 / 10 ^ 18 : ℚ) / 2 ^ ((-4 : ℤ) - 52)) =
        123456789123456789 * 72057594037927936 / 10 ^ 18 := by
      norm_num
    rw [h]
    exact round_eval (by norm_num) (by norm_num)
  · norm_num

/-- Exact single-precision value stored for `original_val`:
`16570090 * 2 ^ (-27) = 8285045 / 67108864 = 0.12345679104328155517578125`. -/
theorem f32_originalVal : f32 originalVal = 8285045 / 67108864 := by
  rw [originalVal_eval, f32]
  refine roundFP_eval_at (-4) 16570090 (by norm_num) (by norm_num) (by norm_num)
    (by norm_num) ?_ ?_
  · have h : ((4447999595942063 / 36028797018963968 : ℚ) / 2 ^ ((-4 : ℤ) - 23)) =
        4447999595942063 / 268435456 := by
      norm_num
    rw [h]
    exact round_eval (by norm_num) (by norm_num)
  · norm_num

/-- The round-trip error of the audited literal, exactly. -/
theorem precisionDelta_originalVal :
    precisionDelta originalVal = 69168977 / 36028797018963968 := by
  rw [precisionDelta, f32_originalVal, originalVal_eval]
  rw [abs_of_neg (by norm_num)]
  norm_num

/-! ## Claim theorems -/

/-- C1 (counterexample): a record failing schema validation makes
`run_compliance` return after printing the failure; the output consists
of that single failed row and no precision-audit row, so not every
remaining check executes and reports. -/
theorem c1_counterexample :
    validate shortRecord ≠ none ∧
    run_compliance shortRecord 0 = [⟨"SCHEMA FAILURE", false⟩] ∧
    ((run_compliance shortRecord 0).all fun r => r.check ≠ "Precision Delta") = true := by
  have hv : validate shortRecord = some (.tooShort 1535 1536) := by decide
  have hrun : run_compliance shortRecord 0 = [⟨"SCHEMA FAILURE", false⟩] := by
    simp [run_compliance, hv]
  refine ⟨by simp [hv], hrun, ?_⟩
  rw [hrun]
  decide

/-- C1 (amended): a precision-audit failure is captured as data — the
row reports `passed = false` and the run continues to the closing
panel — but a schema-validation failure aborts the suite: the run
returns with only the failure row and the precision audit never
executes. -/
theorem c1_precision_captured_schema_aborts :
    (∀ req v, validate req = none →
      ComplianceRecord.mk "Precision Delta" (decide (precisionDelta v < 1 / 10 ^ 7))
          ∈ run_compliance req v ∧
      ComplianceRecord.mk "COMPLIANCE VERIFIED" true ∈ run_compliance req v) ∧
    (∀ req v, validate req ≠ none →
      run_compliance req v = [⟨"SCHEMA FAILURE", false⟩]) := by
  constructor
  · intro req v h
    constructor <;> simp [run_compliance, h]
  · intro req v h
    cases hv : validate req with
    | none => exact absurd hv h
    | some e => simp [run_compliance, hv]

/-- C1 (witness): at `v = 2 ^ 25 + 1` the audit fails, yet its FAIL row
and the closing panel both appear; a malformed request yields only the
schema-failure row. -/
theorem c1_witness :
    (ComplianceRecord.mk "Precision Delta" (decide (precisionDelta 33554433 < 1 / 10 ^ 7))
        ∈ run_compliance mockRequest 33554433 ∧
      ComplianceRecord.mk "COMPLIANCE VERIFIED" true ∈ run_compliance mockRequest 33554433) ∧
    run_compliance (Json.str "nope") 0 = [⟨"SCHEMA FAILURE", false⟩] :=
  ⟨c1_precision_captured_schema_aborts.1 mockRequest 33554433 (by decide),
   c1_precision_captured_schema_aborts.2 (Json.str "nope") 0 (by decide)⟩

/-- C2 (counterexample): the loose estimate of `run_memory_test` is
unchanged when the host's boxed-float size changes from 24 to 28 bytes
(only the hard-coded constant 24 is used per scalar), while the
spec-modelled inspecting estimator does change. -/
theorem c2_counterexample :
    pyLooseBytes cpython 10000 1536 = pyLooseBytes cpython28 10000 1536 ∧
    specLooseBytes cpython 10000 1536 ≠ specLooseBytes cpython28 10000 1536 := by
  constructor <;> decide

/-- C2 (amended): `estimate_loose` accounts for the outer container
(introspected), the per-row containers (introspected), and a per-scalar
boxed-object cost — but the per-scalar cost is the assumed constant 24
bytes, invariant under any change of the host's actual boxed-float
size. -/
theorem c2_constant_per_scalar (env : HostEnv) (V D : ℕ) :
    pyLooseBytes env V D = env.listRawSize V + V * env.listSize D + V * D * 24 ∧
    ∀ env₂ : HostEnv, env₂.listRawSize = env.listRawSize → env₂.listSize = env.listSize →
      pyLooseBytes env₂ V D = pyLooseBytes env V D := by
  refine ⟨rfl, fun env₂ h1 h2 => ?_⟩
  rw [pyLooseBytes, pyLooseBytes, h1, h2]

/-- C2 (witness): the CPython host and its 28-byte-float variant give
the same loose estimate on the benchmark's 10000 × 1536 collection. -/
theorem c2_witness :
    pyLooseBytes cpython28 10000 1536 = pyLooseBytes cpython 10000 1536 :=
  (c2_constant_per_scalar cpython 10000 1536).2 cpython28 rfl rfl

/-- C3 (counterexample): `2 ^ 25 + 1` is finite and far inside
single-precision range, yet its single-precision round-trip error is
exactly 1, not below `1e-6`. -/
theorem c3_counterexample :
    inF32Range 33554433 ∧ ¬ precisionDelta 33554433 < 1 / 10 ^ 6 := by
  constructor
  · rw [inF32Range, f32Max, abs_of_nonneg (by norm_num)]
    norm_num
  · rw [precisionDelta, f32_pow25]
    norm_num

/-- C3 (amended): for every value of magnitude at most 16, the
single-precision round-trip has absolute error strictly below `1e-6`
(half the binade spacing, at most `2 ^ (-20)`); beyond magnitude 16 the
spacing itself exceeds `2e-6` and the bound fails. -/
theorem c3_roundtrip_error_small (q : ℚ) (h : |q| ≤ 16) :
    precisionDelta q < 1 / 10 ^ 6 := by
  have hb := abs_sub_roundFP_le 23 (-126) q
  have he : max (Int.log 2 |q|) (-126) ≤ 4 := by
    by_cases hq : q = 0
    · subst hq
      rw [abs_zero, Int.log_zero_right]
      norm_num
    · have h0 : (0 : ℚ) < |q| := abs_pos.mpr hq
      have h16 : Int.log 2 |q| ≤ Int.log 2 (16 : ℚ) := Int.log_mono_right h0 h
      have h4 : Int.log 2 (16 : ℚ) = 4 := intLog_eq (by norm_num) (by norm_num) (by norm_num)
      rw [h4] at h16
      exact max_le h16 (by norm_num)
  have hfin : (2 : ℚ) ^ ((4 : ℤ) - 23) / 2 < 1 / 10 ^ 6 := by
    rw [show ((4 : ℤ) - 23) = -19 by norm_num]
    norm_num
  calc precisionDelta q ≤ 2 ^ (max (Int.log 2 |q|) (-126) - 23) / 2 := hb
    _ ≤ 2 ^ ((4 : ℤ) - 23) / 2 := by
      gcongr
      norm_num
    _ < 1 / 10 ^ 6 := hfin

/-- C3 (witness): the round-trip of `1/3` errs by less than `1e-6`. -/
theorem c3_witness : |(1 / 3 : ℚ)| ≤ 16 ∧ precisionDelta (1 / 3) < 1 / 10 ^ 6 :=
  ⟨by rw [abs_of_pos (by norm_num : (0 : ℚ) < 1 / 3)]; norm_num,
   c3_roundtrip_error_small (1 / 3) (by rw [abs_of_pos (by norm_num : (0 : ℚ) < 1 / 3)]; norm_num)⟩

/-- C4: a packed `count × dimension` float32 buffer reports exactly
`count * dimension * 4` bytes, with no per-element overhead. -/
theorem c4_packed_exact (V D : ℕ) (hV : 0 < V) (hD : 0 < D) :
    nbytes (npZerosF32 V D) = V * D * 4 := rfl

/-- C4 (witness): the benchmark's own 10000 × 1536 buffer. -/
theorem c4_witness :
    0 < 10000 ∧ 0 < 1536 ∧ nbytes (npZerosF32 10000 1536) = 10000 * 1536 * 4 :=
  ⟨by norm_num, by norm_num, c4_packed_exact 10000 1536 (by norm_num) (by norm_num)⟩

/-- C5: on every host, the loose estimate dominates the packed
estimate (24 bytes per scalar already exceeds the 4-byte element), so
the derived bloat ratio is at least 1. -/
theorem c5_loose_ge_packed (env : HostEnv) (V D : ℕ) (hV : 0 < V) (hD : 0 < D) :
    nbytes (npZerosF32 V D) ≤ pyLooseBytes env V D ∧ 1 ≤ bloatRatio env V D := by
  have h1 : nbytes (npZerosF32 V D) ≤ pyLooseBytes env V D := by
    calc nbytes (npZerosF32 V D) = V * D * 4 := rfl
      _ ≤ V * D * 24 := Nat.mul_le_mul_left _ (by norm_num)
      _ ≤ env.listRawSize V + V * env.listSize D + V * D * 24 := Nat.le_add_left _ _
  refine ⟨h1, ?_⟩
  have hnb : (0 : ℚ) < (nbytes (npZerosF32 V D) : ℚ) := by
    have : 0 < V * D * 4 := by positivity
    exact_mod_cast this
  rw [bloatRatio, le_div_iff₀ hnb, one_mul]
  exact_mod_cast h1

/-- C5 (witness): the benchmark's CPython run. -/
theorem c5_witness :
    nbytes (npZerosF32 10000 1536) ≤ pyLooseBytes cpython 10000 1536 ∧
    1 ≤ bloatRatio cpython 10000 1536 :=
  c5_loose_ge_packed cpython 10000 1536 (by norm_num) (by norm_num)

/-- C6: the well-formed 1536-vector record validates clean and its run
starts with a PASS row; the 1535-vector record fails with a diagnostic
carrying the offending array length, and its run reports the failure. -/
theorem c6_schema_scenarios :
    validate wellFormedRecord = none ∧
    (run_compliance wellFormedRecord 0).head? = some ⟨"JSON Structure", true⟩ ∧
    validate shortRecord = some (.tooShort 1535 1536) ∧
    run_compliance shortRecord 0 = [⟨"SCHEMA FAILURE", false⟩] := by
  have hgood : validate wellFormedRecord = none := by decide
  have hbad : validate shortRecord = some (.tooShort 1535 1536) := by decide
  exact ⟨hgood, by simp [run_compliance, hgood], hbad, by simp [run_compliance, hbad]⟩

/-- C7: whenever the buffer and query dimensions disagree, `dot` fails
with `DimensionMismatch` and the measurement produces no MetricRecord. -/
theorem c7_dimension_mismatch (buf : Packed) (q : List ℚ) (label : String) (qps : ℚ)
    (h : buf.dim ≠ q.length) :
    dot buf q = .error .DimensionMismatch ∧
    throughputMetric label qps buf q = .error .DimensionMismatch := by
  have hd : dot buf q = .error .DimensionMismatch := by
    rw [dot, if_neg h]
  exact ⟨hd, by rw [throughputMetric, hd]; rfl⟩

/-- C7 (witness): a 128-column buffer against a 64-element query. -/
theorem c7_witness :
    dot ⟨128, [List.replicate 128 (0 : ℚ)]⟩ (List.replicate 64 (0 : ℚ)) =
      .error .DimensionMismatch ∧
    throughputMetric "Standard RAG" 0 ⟨128, [List.replicate 128 (0 : ℚ)]⟩
        (List.replicate 64 (0 : ℚ)) = .error .DimensionMismatch :=
  c7_dimension_mismatch ⟨128, [List.replicate 128 (0 : ℚ)]⟩ (List.replicate 64 (0 : ℚ))
    "Standard RAG" 0 (by simp)

/-- C8: the audited literal decodes to
`16570090 * 2 ^ (-27) = 0.12345679104328155…`, the round-trip error is
below the `1e-7` threshold, and the report's precision row is a PASS. -/
theorem c8_precision_audit_passes :
    f32 originalVal = 8285045 / 67108864 ∧
    |f32 originalVal - 12345679104328155 / 10 ^ 17| < 1 / 10 ^ 16 ∧
    precisionDelta originalVal < 1 / 10 ^ 7 ∧
    ComplianceRecord.mk "Precision Delta" true ∈ run_compliance mockRequest originalVal := by
  have hdelta : precisionDelta originalVal < 1 / 10 ^ 7 := by
    rw [precisionDelta_originalVal]
    norm_num
  refine ⟨f32_originalVal, ?_, hdelta, ?_⟩
  · rw [f32_originalVal, abs_of_pos (by norm_num)]
    norm_num
  · have hv : validate mockRequest = none := by decide
    simp [run_compliance, hv]
    rw [← one_div]
    exact hdelta

/-- C9: each standard-path iteration applies the same kernel to the same
pre-materialized buffer and query as the optimized path, so the
similarity outputs coincide; the standard path differs only by also
performing (and discarding) the loose-to-packed conversion. -/
theorem c9_paths_identical (raw : List (List ℚ)) (fast_buffer : Packed) (query : List ℚ) :
    (standardIteration raw fast_buffer query).2 = optimizedIteration fast_buffer query ∧
    (standardIteration raw fast_buffer query).1 = npArrayF32 raw :=
  ⟨rfl, rfl⟩

/-- C10: a record with a string `id` and a 1536-element numeric `vector`
but no `payload` field validates clean — `payload` is not required. -/
theorem c10_payload_optional :
    validate noPayloadRecord = none ∧
    (run_compliance noPayloadRecord 0).head? = some ⟨"JSON Structure", true⟩ := by
  have hv : validate noPayloadRecord = none := by decide
  exact ⟨hv, by simp [run_compliance, hv]⟩

end Mutatis
